import Mathlib

/-!
Submission pipeline (`main.go`): a shallow embedding of `Handler`.

`Handler` is a straight-line Go function whose every step is a call to the
outside world (JSON decoding, the process environment, HTTP, the blob store,
the mail backend, the audit table).  The embedding makes the outside world an
explicit argument, `World`, that gives the values each call returns, and makes
the run an explicit value, `Run`: the sequence of effects performed, the
successive values of the local `status`, and how the function ended.

Go semantics that matter here and are modelled:
* indexing an empty slice panics (`snsEvent.Records[0]`);
* selecting a field through a nil pointer panics (`resp.Body` with `resp == nil`
  on line 59);
* `client.Bucket` reads the client it is called on, so calling it on a nil
  `*storage.Client` panics (line 81, after a failed `storage.NewClient`);
* deferred calls run, last registered first, when the function returns or
  panics after they were registered;
* `session.Must` panics when it is handed an error.

Every other call into the imported packages is modelled by the values its Go
signature returns. The `context.Context` argument is not modelled.
-/

namespace Serverless

/-! ## Data -/

/-- A Go `error` value that is not nil, by its message. `Option Error` is a Go `error`. -/
abbrev Error := String

/-- A byte slice. -/
abbrev Bytes := List Nat

/-- The struct `SubmissionMessage` (main.go, lines 25-29). -/
structure SubmissionMessage where
  StudentEmail : String
  SubmissionURL : String
  AssignmentName : String
deriving DecidableEq, Repr

/-- The fields of `events.SNSEntity` that describe one notification; `Handler` reads `Message`. -/
structure SNSEntity where
  MessageID : String
  TopicArn : String
  Subject : String
  Timestamp : String
  Message : String
deriving DecidableEq, Repr

/-- One record of `events.SNSEvent`. -/
structure SNSEventRecord where
  EventVersion : String
  EventSubscriptionArn : String
  EventSource : String
  SNS : SNSEntity
deriving DecidableEq, Repr

/-- The trigger, `events.SNSEvent`. -/
structure SNSEvent where
  Records : List SNSEventRecord
deriving DecidableEq, Repr

/-- What `Handler` uses of a `*http.Response`: the status code and the body, as a handle. -/
structure Response where
  StatusCode : Int
  Body : Nat
deriving DecidableEq, Repr

/-- A `*storage.Client` that is not nil. -/
structure Client where
  handle : Nat
deriving DecidableEq, Repr

/-- The `*storage.Writer` built by `client.Bucket(b).Object(o).NewWriter(ctx)`
on a client that is not nil. -/
structure Writer where
  client : Client
  bucket : String
  object : String
deriving DecidableEq, Repr

/-- The arguments of `mg.NewMessage(from, subject, text, to)`. -/
structure Message where
  sender : String
  subject : String
  text : String
  recipient : String
deriving DecidableEq, Repr

/-- The struct `EmailInfo` (main.go, lines 108-113). -/
structure EmailInfo where
  SentID : String
  EmailAddress : String
  Status : Int
  Time : String
deriving DecidableEq, Repr

/-- A marshalled item, `map[string]*dynamodb.AttributeValue`, as attribute name and rendered value. -/
abbrev Item := List (String × String)

/-- The results of the calls `Handler` makes outside the program. -/
structure World where
  /-- The call `json.Unmarshal([]byte(s), &msg)`: the error, or the decoded message. -/
  jsonUnmarshal : String → Except Error SubmissionMessage
  /-- The call `os.Getenv`. -/
  getenv : String → String
  /-- The call `base64.StdEncoding.DecodeString`. -/
  base64DecodeString : String → Bytes × Option Error
  /-- The call `http.Get`: the response pointer (`none` is nil) and the error. -/
  httpGet : String → Option Response × Option Error
  /-- The call `ioutil.ReadAll(resp.Body)`: the bytes read and the error. -/
  readAll : Response → Bytes × Option Error
  /-- The call `storage.NewClient`: the client pointer (`none` is nil) and the error. -/
  newClient : Bytes → Option Client × Option Error
  /-- The call `wc.Write(body)`: the error (the count is discarded by `Handler`). -/
  writerWrite : Writer → Bytes → Option Error
  /-- The call `wc.Close()`. -/
  writerClose : Writer → Option Error
  /-- The call `mg.Send(ctx, m)` on `mailgun.NewMailgun(domain, apiKey)`, under its
  30 second deadline: the identifier and the error. -/
  mailgunSend : String → String → Message → String × Option Error
  /-- The error of `session.NewSession()`. -/
  newSession : Option Error
  /-- The value of `time.Now().Format(time.RFC3339)`. -/
  now : String
  /-- The call `dynamodbattribute.MarshalMap`. -/
  marshalMap : EmailInfo → Item × Option Error
  /-- The call `svc.PutItem` on the table and item of its input. -/
  putItem : String → Item → Option Error

/-- An operand of a print call. -/
inductive Val where
  | str (s : String)
  | int (i : Int)
  | err (e : Option Error)
  | item (m : Item)
deriving DecidableEq, Repr

/-- One externally visible action of a run, in program order. The three
`call...` effects mark the entry into a function of `main.go`. -/
inductive Effect where
  | println (args : List Val)
  | logPrintf (format : String) (args : List Val)
  | logPrintln (args : List Val)
  | httpGet (url : String)
  | readAll (resp : Response)
  | bodyClose (resp : Response)
  | newClient (credentials : Bytes)
  | clientClose (client : Option Client)
  | writerWrite (wc : Writer) (p : Bytes)
  | writerClose (wc : Writer)
  | callSendSuccessMessage (domain apiKey emailAddress submissionUrl assignment : String)
  | callSendFailMessage (domain apiKey emailAddress submissionUrl assignment : String)
  | mailgunSend (domain apiKey : String) (m : Message)
  | callTrackEmailSent (sentId email tableName : String) (status : Int)
  | newSession
  | timeNow
  | marshalMap (emailInfo : EmailInfo)
  | putItem (tableName : String) (item : Item)
deriving DecidableEq, Repr

/-- How a function call ended. -/
inductive Exit where
  | returned
  | panicked (msg : String)
deriving DecidableEq, Repr

/-- One run of `Handler`: the effects in order, the values of the local
`status` (at its initialisation on line 45, then after each of the `if`
statements that may clear it and that the run got to, lines 55, 61, 67, 74,
82, 86), and the exit. -/
structure Run where
  trace : List Effect
  flags : List Int
  exit : Exit
deriving DecidableEq, Repr

/-! ## The functions of `main.go` -/

/-- The function `SendSuccessMessage` (main.go, lines 154-174): effects, then `(id, err)`. -/
def SendSuccessMessage (w : World) (domain apiKey emailAddress submissionUrl assignment : String) :
    List Effect × (String × Option Error) :=
  let m : Message := Message.mk
    "mailgun@demo.douhaoma.me"
    ("Assignment Submission Confirmation: " ++ assignment)
    ("Dear " ++ emailAddress ++ ",\n\n" ++
      "We are pleased to inform you that your assignment titled " ++ assignment ++ " has been successfully submitted: " ++ submissionUrl ++
      "Thank you for completing the work on time. Your dedication is essential to the progression of our course.\n\n" ++
      "Should you have any questions or require further assistance, please do not hesitate to reach out.\n\n" ++
      "Wishing you continued success in your studies!\n\n\n" ++
      "Warm regards,\n" ++
      "Automatically Sent by Assignment Submission System")
    emailAddress
  ([Effect.mailgunSend domain apiKey m], w.mailgunSend domain apiKey m)

/-- The function `SendFailMessage` (main.go, lines 176-196): effects, then `(id, err)`. -/
def SendFailMessage (w : World) (domain apiKey emailAddress submissionUrl assignment : String) :
    List Effect × (String × Option Error) :=
  let m : Message := Message.mk
    "mailgun@demo.douhaoma.me"
    "Action Required: Assignment Submission Failed"
    ("Dear " ++ emailAddress ++ ",\n\n" ++
      "It appears that there was an issue with your recent attempt to submit the assignment" ++ assignment ++
      "Unfortunately, we did not receive your submission successfully. The URL you provided for your submission is: " ++ submissionUrl ++ ".\n\n" ++
      "Please review the submission link or file for any errors and attempt to submit again. If the problem persists, do not hesitate to contact us for support.\n\n" ++
      "We understand that technical issues can be frustrating and appreciate your patience in resolving this matter.\n\n" ++
      "Best regards,\n" ++
      "Automatically Sent by Assignment Submission System")
    emailAddress
  ([Effect.mailgunSend domain apiKey m], w.mailgunSend domain apiKey m)

/-- The function `TrackEmailSent` (main.go, lines 115-152): effects, then the
returned error, or the panic of `session.Must`. -/
def TrackEmailSent (w : World) (sentId email tableName : String) (status : Int) :
    List Effect × Except String (Option Error) :=
  match w.newSession with
  | some e => ([Effect.newSession], Except.error e)
  | none =>
    let currentTime := w.now
    let emailInfo : EmailInfo := EmailInfo.mk sentId email status currentTime
    let marshalled := w.marshalMap emailInfo
    let item := marshalled.1
    match marshalled.2 with
    | some err =>
      ([Effect.newSession, Effect.timeNow, Effect.marshalMap emailInfo,
        Effect.logPrintf "Error marshalling item: %s\n" [Val.err (some err)]],
       Except.ok (some err))
    | none =>
      match w.putItem tableName item with
      | some err =>
        ([Effect.newSession, Effect.timeNow, Effect.marshalMap emailInfo,
          Effect.logPrintf "Marshalled item: %+v\n" [Val.item item],
          Effect.putItem tableName item,
          Effect.logPrintf "Error putting item to DynamoDB: %s\n" [Val.err (some err)]],
         Except.ok (some err))
      | none =>
        ([Effect.newSession, Effect.timeNow, Effect.marshalMap emailInfo,
          Effect.logPrintf "Marshalled item: %+v\n" [Val.item item],
          Effect.putItem tableName item,
          Effect.logPrintln [Val.str "Successfully put item to DynamoDB"]],
         Except.ok none)

/-- The result of lines 53-70 of `Handler`: the effects, the values of `status`
after each check made, the last of them, and the response with the bytes read
from it; `fetched` is `none` when line 59 panicked. -/
structure Download where
  trace : List Effect
  flags : List Int
  status : Int
  fetched : Option (Response × Bytes)
deriving DecidableEq, Repr

/-- Lines 53-70 of `Handler`, the section headed "download the file": the
request, `defer resp.Body.Close()`, the status check and the body read. -/
def Handler.download (w : World) (fileURL : String) (status : Int) : Download :=
  -- lines 54-58
  let got := w.httpGet fileURL
  let tr1 := [Effect.httpGet fileURL] ++
    (if got.2.isSome then [Effect.println [Val.str "Download file error:", Val.err got.2]] else [])
  let status1 : Int := if got.2.isSome then 0 else status
  -- line 59
  match got.1 with
  | none => Download.mk tr1 [status1] status1 none
  | some resp =>
    -- lines 61-64
    let tr2 :=
      if resp.StatusCode ≠ 200 then
        [Effect.println [Val.str "failed to download file: HTTP status ", Val.int resp.StatusCode]]
      else []
    let status2 : Int := if resp.StatusCode ≠ 200 then 0 else status1
    -- lines 66-70
    let read := w.readAll resp
    let body := read.1
    let tr3 := [Effect.readAll resp] ++
      (if read.2.isSome then
        [Effect.println [Val.str "failed to read downloaded content:", Val.err read.2]]
       else [])
    let status3 : Int := if read.2.isSome then 0 else status2
    Download.mk (tr1 ++ tr2 ++ tr3) [status1, status2, status3] status3 (some (resp, body))

/-- The result of lines 72-90 of `Handler`: the effects, the values of `status`
after each check made, the last of them, and the client pointer; the client
is `none` exactly when line 81 panicked. -/
structure Upload where
  trace : List Effect
  flags : List Int
  status : Int
  client : Option Client
deriving DecidableEq, Repr

/-- Lines 72-90 of `Handler`, the sections headed "GCP authentication and
upload" and "write to the GCP bucket": client creation, `defer client.Close()`,
the writer of line 81 (a panic on a nil client), the write, the close of the
writer, and the print of `status`. -/
def Handler.upload (w : World) (decodedCredentials : Bytes) (bucketName assignment email : String)
    (body : Bytes) (status : Int) : Upload :=
  -- lines 73-78
  let made := w.newClient decodedCredentials
  let tr4 := [Effect.newClient decodedCredentials] ++
    (if made.2.isSome then [Effect.println [Val.str "storage.NewClient: ", Val.err made.2]] else [])
  let status4 : Int := if made.2.isSome then 0 else status
  -- line 81
  match made.1 with
  | none => Upload.mk tr4 [status4] status4 none
  | some client =>
    let wc : Writer := Writer.mk client bucketName (assignment ++ email ++ " submission")
    -- lines 82-85
    let wrote := w.writerWrite wc body
    let tr5 := [Effect.writerWrite wc body] ++
      (if wrote.isSome then
        [Effect.println [Val.str "failed to write to GCP Bucket: ", Val.err wrote]]
       else [])
    let status5 : Int := if wrote.isSome then 0 else status4
    -- lines 86-90
    let closed := w.writerClose wc
    let tr6 := [Effect.writerClose wc] ++
      (if closed.isSome then
        [Effect.println [Val.str "failed to close GCP Bucket writer: ", Val.err closed]]
       else [])
    let status6 : Int := if closed.isSome then 0 else status5
    Upload.mk (tr4 ++ tr5 ++ tr6 ++ [Effect.println [Val.int status6]])
      [status4, status5, status6] status6 (some client)

/-- Lines 92-105 of `Handler`, the section headed "send the email notification":
the send chosen by `status`, the print of its result, and `TrackEmailSent`.
The exit is a panic when `TrackEmailSent` panicked. -/
def Handler.notify (w : World) (emailDomain emailApiKey tableName email fileURL assignment : String)
    (status : Int) : List Effect × Exit :=
  -- lines 93-100
  let sent :=
    if status = 1 then
      (Effect.callSendSuccessMessage emailDomain emailApiKey email fileURL assignment,
        SendSuccessMessage w emailDomain emailApiKey email fileURL assignment)
    else
      (Effect.callSendFailMessage emailDomain emailApiKey email fileURL assignment,
        SendFailMessage w emailDomain emailApiKey email fileURL assignment)
  let id := sent.2.2.1
  let tr8 := [sent.1] ++ sent.2.1 ++ [Effect.println [Val.str id, Val.err sent.2.2.2]]
  -- lines 102-105
  let tracked := TrackEmailSent w id email tableName status
  let tr9 := tr8 ++ [Effect.callTrackEmailSent id email tableName status] ++ tracked.1
  match tracked.2 with
  | Except.error p => (tr9, Exit.panicked p)
  | Except.ok err =>
    (tr9 ++ (if err.isSome then [Effect.println [Val.str "track email error ", Val.err err]] else []),
      Exit.returned)

/-- The function `Handler` (main.go, lines 31-106); its three sections are
`Handler.download`, `Handler.upload` and `Handler.notify`. The run ends in a
panic on line 32 (no record), on line 59 (nil response), on line 81 (nil
client) or inside `TrackEmailSent`; the deferred calls registered by then are
made before the panic leaves the function. -/
def Handler (w : World) (snsEvent : SNSEvent) : Run :=
  match snsEvent.Records with
  | [] => Run.mk [] [] (Exit.panicked "runtime error: index out of range [0] with length 0")
  | record0 :: _ =>
    let snsRecord := record0.SNS
    match w.jsonUnmarshal snsRecord.Message with
    | Except.error err =>
      Run.mk [Effect.println [Val.str "Error while unmarshalling SNS message:", Val.err (some err)]]
        [] Exit.returned
    | Except.ok msg =>
      let email := msg.StudentEmail
      let fileURL := msg.SubmissionURL
      let assignment := msg.AssignmentName
      let tr0 := [Effect.println [Val.str assignment, Val.str "Submission URL is:", Val.str msg.SubmissionURL]]
      -- lines 45-51
      let status : Int := 1
      let googleCredentials := w.getenv "GOOGLE_CREDENTIALS"
      let decodedCredentials := (w.base64DecodeString googleCredentials).1
      let bucketName := w.getenv "BUCKET_NAME"
      let emailApiKey := w.getenv "MAILGUN_API"
      let emailDomain := w.getenv "EMAIL_DOMAIN"
      let tableName := w.getenv "DYNAMO_TABLE"
      -- lines 53-70
      let down := Handler.download w fileURL status
      match down.fetched with
      | none =>
        Run.mk (tr0 ++ down.trace) (status :: down.flags)
          (Exit.panicked "runtime error: invalid memory address or nil pointer dereference")
      | some (resp, body) =>
        -- lines 72-90
        let up := Handler.upload w decodedCredentials bucketName assignment email body down.status
        -- the deferred calls of lines 78 and 59
        let deferred := [Effect.clientClose up.client, Effect.bodyClose resp]
        match up.client with
        | none =>
          Run.mk (tr0 ++ down.trace ++ up.trace ++ deferred) (status :: (down.flags ++ up.flags))
            (Exit.panicked "runtime error: invalid memory address or nil pointer dereference")
        | some _ =>
          -- lines 92-105
          let note :=
            Handler.notify w emailDomain emailApiKey tableName email fileURL assignment up.status
          Run.mk (tr0 ++ down.trace ++ up.trace ++ note.1 ++ deferred)
            (status :: (down.flags ++ up.flags)) note.2

/-! ## Observations on a trace -/

/-- Entry into `SendSuccessMessage` or `SendFailMessage`. -/
def isNotification : Effect → Bool
  | Effect.callSendSuccessMessage _ _ _ _ _ => true
  | Effect.callSendFailMessage _ _ _ _ _ => true
  | _ => false

/-- Entry into `TrackEmailSent`. -/
def isAudit : Effect → Bool
  | Effect.callTrackEmailSent _ _ _ _ => true
  | _ => false

/-- A `wc.Write` call. -/
def isArchiveWrite : Effect → Bool
  | Effect.writerWrite _ _ => true
  | _ => false

/-- The calls that download, archive, notify or audit: everything in a trace
but the prints, the session, the clock, the marshalling and the deferred closes. -/
def isPipelineEffect : Effect → Bool
  | Effect.httpGet _ => true
  | Effect.readAll _ => true
  | Effect.newClient _ => true
  | Effect.writerWrite _ _ => true
  | Effect.writerClose _ => true
  | Effect.callSendSuccessMessage _ _ _ _ _ => true
  | Effect.callSendFailMessage _ _ _ _ _ => true
  | Effect.mailgunSend _ _ _ => true
  | Effect.callTrackEmailSent _ _ _ _ => true
  | Effect.putItem _ _ => true
  | _ => false

/-- An archive write, a notification call or an audit call. -/
def isMilestone (e : Effect) : Bool := isArchiveWrite e || isNotification e || isAudit e

/-- The notification calls of a trace, in order. -/
def notifications (tr : List Effect) : List Effect := tr.filter isNotification

/-- The audit calls of a trace, in order. -/
def audits (tr : List Effect) : List Effect := tr.filter isAudit

/-- The archive writes of a trace, in order. -/
def archiveWrites (tr : List Effect) : List Effect := tr.filter isArchiveWrite

/-- The archive writes, notification calls and audit calls of a trace, in order. -/
def milestones (tr : List Effect) : List Effect := tr.filter isMilestone

/-- A call of `mg.Send`. -/
def isMailSend : Effect → Bool
  | Effect.mailgunSend _ _ _ => true
  | _ => false

/-- A call of `dynamodbattribute.MarshalMap`. -/
def isMarshal : Effect → Bool
  | Effect.marshalMap _ => true
  | _ => false

/-- The object names under which a trace writes to the archive. -/
def archiveKeys (tr : List Effect) : List String :=
  (tr.filter isArchiveWrite).filterMap (fun e => match e with
    | Effect.writerWrite wc _ => some wc.object
    | _ => none)

/-- The records `TrackEmailSent` builds for the audit table. -/
def emailInfos (tr : List Effect) : List EmailInfo :=
  (tr.filter isMarshal).filterMap (fun e => match e with
    | Effect.marshalMap info => some info
    | _ => none)

/-- The last value of `status` in a run, if it was ever initialised. -/
def finalStatus (r : Run) : Option Int := r.flags.getLast?

/-! ## Notions used in the statements -/

/-- A predicate on effects that is false on prints and on the calls that only
read, create or release a handle. -/
structure Quiet (p : Effect → Bool) : Prop where
  println : ∀ a, p (Effect.println a) = false
  logPrintf : ∀ f a, p (Effect.logPrintf f a) = false
  logPrintln : ∀ a, p (Effect.logPrintln a) = false
  httpGet : ∀ u, p (Effect.httpGet u) = false
  readAll : ∀ r, p (Effect.readAll r) = false
  bodyClose : ∀ r, p (Effect.bodyClose r) = false
  newClient : ∀ c, p (Effect.newClient c) = false
  clientClose : ∀ c, p (Effect.clientClose c) = false
  writerClose : ∀ wc, p (Effect.writerClose wc) = false
  newSession : p Effect.newSession = false
  timeNow : p Effect.timeNow = false
  putItem : ∀ t i, p (Effect.putItem t i) = false

/-- The notification call that lines 94-98 make for a given `status`. -/
def notifyCall (emailDomain emailApiKey email fileURL assignment : String) (status : Int) : Effect :=
  if status = 1 then Effect.callSendSuccessMessage emailDomain emailApiKey email fileURL assignment
  else Effect.callSendFailMessage emailDomain emailApiKey email fileURL assignment

/-- The effects and the result of the function that lines 94-98 call for a given `status`. -/
def notifySend (w : World) (emailDomain emailApiKey email fileURL assignment : String)
    (status : Int) : List Effect × (String × Option Error) :=
  if status = 1 then SendSuccessMessage w emailDomain emailApiKey email fileURL assignment
  else SendFailMessage w emailDomain emailApiKey email fileURL assignment

/-- The notification call, the send, the audit call and the record built for
the audit in `Handler.notify`, for a given `status`. -/
def notifyCalls (w : World) (emailDomain emailApiKey tableName email fileURL assignment : String)
    (status : Int) : List Effect :=
  [notifyCall emailDomain emailApiKey email fileURL assignment status] ++
    (notifySend w emailDomain emailApiKey email fileURL assignment status).1 ++
    [Effect.callTrackEmailSent
      (notifySend w emailDomain emailApiKey email fileURL assignment status).2.1
      email tableName status] ++
    (if w.newSession = none then
      [Effect.marshalMap (EmailInfo.mk
        (notifySend w emailDomain emailApiKey email fileURL assignment status).2.1
        email status w.now)] else [])

/-- The credentials handed to `storage.NewClient` on line 73. -/
def credentials (w : World) : Bytes := (w.base64DecodeString (w.getenv "GOOGLE_CREDENTIALS")).1

/-- The writer of line 81 in a run on message `msg` with client `client`. -/
def archiveWriter (w : World) (msg : SubmissionMessage) (client : Client) : Writer :=
  Writer.mk client (w.getenv "BUCKET_NAME")
    (msg.AssignmentName ++ msg.StudentEmail ++ " submission")

/-- The results of the three checks of the download step, in program order
(request error, response status, body read); `true` is success. -/
def downloadChecks (w : World) (msg : SubmissionMessage) (resp : Response) : List Bool :=
  [(w.httpGet msg.SubmissionURL).2.isNone, decide (resp.StatusCode = 200), (w.readAll resp).2.isNone]

/-- The results of the three checks of the archive step, in program order
(client creation, write, writer close); `true` is success. -/
def archiveChecks (w : World) (msg : SubmissionMessage) (resp : Response) (client : Client) :
    List Bool :=
  [(w.newClient (credentials w)).2.isNone,
   (w.writerWrite (archiveWriter w msg client) (w.readAll resp).1).isNone,
   (w.writerClose (archiveWriter w msg client)).isNone]

/-- The flag that is 1 exactly when every one of the given checks succeeded. -/
def conjunctionFlag (checks : List Bool) : Int := if checks.all id then 1 else 0

/-- The value of `status` with which `Handler.upload` ends in a run on `msg` that
got response `resp`: the value on line 90 or, on a nil client, the value at
the panic of line 81. -/
def statusAtNotify (w : World) (msg : SubmissionMessage) (resp : Response) : Int :=
  (Handler.upload w (credentials w) (w.getenv "BUCKET_NAME")
    msg.AssignmentName msg.StudentEmail (w.readAll resp).1
    (Handler.download w msg.SubmissionURL 1).status).status

/-! ## Concrete worlds and events -/

/-- A decoder that knows three well-formed messages and rejects everything else. -/
def demoUnmarshal (s : String) : Except Error SubmissionMessage :=
  if s = "\x7b\"student_email\":\"a@x.com\",\"submission_url\":\"https://ok/file\",\"assignment_name\":\"HW1\"\x7d" then
    Except.ok (SubmissionMessage.mk "a@x.com" "https://ok/file" "HW1")
  else if s = "\x7b\"student_email\":\"0a@x.com\",\"submission_url\":\"https://ok/one\",\"assignment_name\":\"HW1\"\x7d" then
    Except.ok (SubmissionMessage.mk "0a@x.com" "https://ok/one" "HW1")
  else if s = "\x7b\"student_email\":\"a@x.com\",\"submission_url\":\"https://ok/ten\",\"assignment_name\":\"HW10\"\x7d" then
    Except.ok (SubmissionMessage.mk "a@x.com" "https://ok/ten" "HW10")
  else
    Except.error "invalid character 'o' in literal null (expecting 'u')"

/-- The environment of the concrete worlds. -/
def demoGetenv (name : String) : String :=
  if name = "GOOGLE_CREDENTIALS" then "e30="
  else if name = "BUCKET_NAME" then "submissions"
  else if name = "MAILGUN_API" then "key-1"
  else if name = "EMAIL_DOMAIN" then "demo.douhaoma.me"
  else if name = "DYNAMO_TABLE" then "emails"
  else ""

/-- A world in which every call succeeds: status 200, body `data`, identifier `id-1`. -/
def demoWorld : World where
  jsonUnmarshal := demoUnmarshal
  getenv := demoGetenv
  base64DecodeString := fun _ => ([123, 125], none)
  httpGet := fun _ => (some (Response.mk 200 1), none)
  readAll := fun _ => ([100, 97, 116, 97], none)
  newClient := fun _ => (some (Client.mk 1), none)
  writerWrite := fun _ _ => none
  writerClose := fun _ => none
  mailgunSend := fun _ _ _ => ("id-1", none)
  newSession := none
  now := "2023-11-30T12:00:00Z"
  marshalMap := fun info =>
    ([("sentId", info.SentID), ("toEmailAddress", info.EmailAddress),
      ("status", if info.Status = 1 then "1" else "0"), ("time", info.Time)], none)
  putItem := fun _ _ => none

/-- As `demoWorld`, but `http.Get` fails in transport: nil response, an error. -/
def transportErrorWorld : World :=
  { demoWorld with httpGet := fun _ => (none, some "dial tcp: lookup ok: no such host") }

/-- As `demoWorld`, but the server answers 404 and the body read breaks off after two bytes. -/
def notFoundWorld : World :=
  { demoWorld with
    httpGet := fun _ => (some (Response.mk 404 1), none)
    readAll := fun _ => ([110, 111], some "unexpected EOF") }

/-- As `demoWorld`, but the server answers 201. -/
def createdWorld : World :=
  { demoWorld with httpGet := fun _ => (some (Response.mk 201 1), none) }

/-- As `demoWorld`, but `storage.NewClient` fails: nil client, an error. -/
def clientFailWorld : World :=
  { demoWorld with
    newClient := fun _ => (none, some "dialing: invalid character 'e' looking for beginning of value") }

/-- As `demoWorld`, but the archive write fails. -/
def archiveFailWorld : World :=
  { demoWorld with writerWrite := fun _ _ => some "googleapi: Error 401: Invalid Credentials" }

/-- As `demoWorld`, but the mail send runs into its deadline: empty identifier, an error. -/
def sendTimeoutWorld : World :=
  { demoWorld with mailgunSend := fun _ _ _ => ("", some "context deadline exceeded") }

/-- A record carrying `message`. -/
def demoRecord (message : String) : SNSEventRecord :=
  SNSEventRecord.mk "1.0" "arn:aws:sns:us-east-1:1:submissions:sub" "aws:sns"
    (SNSEntity.mk "m-1" "arn:aws:sns:us-east-1:1:submissions" "submission" "2023-11-30T11:59:59Z" message)

/-- The message of scenario 1 of the specification. -/
def demoMessage : String :=
  "\x7b\"student_email\":\"a@x.com\",\"submission_url\":\"https://ok/file\",\"assignment_name\":\"HW1\"\x7d"

/-- An event with the single record of scenario 1. -/
def demoEvent : SNSEvent := SNSEvent.mk [demoRecord demoMessage]

/-- An event whose first record is that of `demoEvent` and that has a second, different record. -/
def batchEvent : SNSEvent :=
  SNSEvent.mk [SNSEventRecord.mk "2.0" "arn:other" "aws:sns"
      (SNSEntity.mk "m-2" "arn:other-topic" "resubmission" "2023-12-01T08:00:00Z" demoMessage),
    demoRecord "not json"]

/-- An event whose first record does not decode. -/
def malformedEvent : SNSEvent := SNSEvent.mk [demoRecord "not json"]

/-- The submission of `HW1` by `0a@x.com`. -/
def eventOne : SNSEvent :=
  SNSEvent.mk [demoRecord "\x7b\"student_email\":\"0a@x.com\",\"submission_url\":\"https://ok/one\",\"assignment_name\":\"HW1\"\x7d"]

/-- The submission of `HW10` by `a@x.com`. -/
def eventTen : SNSEvent :=
  SNSEvent.mk [demoRecord "\x7b\"student_email\":\"a@x.com\",\"submission_url\":\"https://ok/ten\",\"assignment_name\":\"HW10\"\x7d"]

/-! ## Lemmas on the sections of `Handler` -/

theorem filter_cond_println (p : Effect → Bool) (c : Prop) [Decidable c] (a : List Val)
    (h : ∀ a, p (Effect.println a) = false) :
    List.filter p (if c then [Effect.println a] else []) = [] := by
  split <;> simp [h]

theorem download_fetched (w : World) (fileURL : String) (status : Int) (resp : Response)
    (hget : (w.httpGet fileURL).1 = some resp) :
    (Handler.download w fileURL status).fetched = some (resp, (w.readAll resp).1) := by
  simp [Handler.download, hget]

theorem download_filter (p : Effect → Bool) (hp : Quiet p) (w : World) (fileURL : String)
    (status : Int) :
    List.filter p (Handler.download w fileURL status).trace = [] := by
  unfold Handler.download
  simp only []
  split <;>
    simp [List.filter_append, filter_cond_println, hp.println, hp.httpGet, hp.readAll]

theorem upload_client (w : World) (decodedCredentials : Bytes)
    (bucketName assignment email : String) (body : Bytes) (status : Int) :
    (Handler.upload w decodedCredentials bucketName assignment email body status).client =
      (w.newClient decodedCredentials).1 := by
  unfold Handler.upload
  simp only []
  split
  · next h => rw [h]
  · next c h => rw [h]

theorem upload_filter (p : Effect → Bool) (hp : Quiet p) (w : World) (decodedCredentials : Bytes)
    (bucketName assignment email : String) (body : Bytes) (status : Int) (client : Client)
    (hclient : (w.newClient decodedCredentials).1 = some client) :
    List.filter p (Handler.upload w decodedCredentials bucketName assignment email body status).trace =
      List.filter p [Effect.writerWrite
        (Writer.mk client bucketName (assignment ++ email ++ " submission")) body] := by
  simp [Handler.upload, hclient, List.filter_append, filter_cond_println, hp.println, hp.newClient,
    hp.writerClose, List.filter_cons]

theorem upload_filter_nil (p : Effect → Bool) (hp : Quiet p) (w : World)
    (decodedCredentials : Bytes) (bucketName assignment email : String) (body : Bytes)
    (status : Int) (hclient : (w.newClient decodedCredentials).1 = none) :
    List.filter p (Handler.upload w decodedCredentials bucketName assignment email body status).trace =
      [] := by
  simp [Handler.upload, hclient, List.filter_append, filter_cond_println, hp.println, hp.newClient,
    List.filter_cons]

/-- What is left of the trace of `TrackEmailSent` under a quiet predicate: the
record it hands to `MarshalMap`, when it gets that far. -/
theorem TrackEmailSent_filter (p : Effect → Bool) (hp : Quiet p) (w : World)
    (sentId email tableName : String) (status : Int) :
    List.filter p (TrackEmailSent w sentId email tableName status).1 =
      List.filter p
        (if w.newSession = none then
          [Effect.marshalMap (EmailInfo.mk sentId email status w.now)] else []) := by
  unfold TrackEmailSent
  split
  · next e he => simp [hp.newSession, he]
  · next he =>
    simp only [he, if_true]
    split
    · simp [hp.newSession, hp.timeNow, hp.logPrintf, List.filter_cons]
    · split <;> simp [hp.newSession, hp.timeNow, hp.logPrintf, hp.logPrintln, hp.putItem, List.filter_cons]

theorem notify_filter (p : Effect → Bool) (hp : Quiet p) (w : World)
    (emailDomain emailApiKey tableName email fileURL assignment : String) (status : Int) :
    List.filter p
        (Handler.notify w emailDomain emailApiKey tableName email fileURL assignment status).1 =
      List.filter p
        (notifyCalls w emailDomain emailApiKey tableName email fileURL assignment status) := by
  unfold Handler.notify notifyCalls notifyCall notifySend
  simp only []
  by_cases hs : status = 1
  · simp only [hs, if_true]
    split <;>
      simp [List.filter_append, List.filter_cons, filter_cond_println, hp.println,
        TrackEmailSent_filter p hp]
  · simp only [hs, if_false]
    split <;>
      simp [List.filter_append, List.filter_cons, filter_cond_println, hp.println,
        TrackEmailSent_filter p hp]

/-- The function called on lines 94-98 makes one call of `mg.Send` and returns its result. -/
theorem notifySend_eq (w : World) (emailDomain emailApiKey email fileURL assignment : String)
    (status : Int) :
    ∃ m, notifySend w emailDomain emailApiKey email fileURL assignment status =
      ([Effect.mailgunSend emailDomain emailApiKey m], w.mailgunSend emailDomain emailApiKey m) := by
  unfold notifySend
  split
  · exact ⟨_, rfl⟩
  · exact ⟨_, rfl⟩

theorem Handler_flags (w : World) (snsEvent : SNSEvent) (record0 : SNSEventRecord)
    (rest : List SNSEventRecord) (msg : SubmissionMessage) (resp : Response) (client : Client)
    (hrec : snsEvent.Records = record0 :: rest)
    (hdec : w.jsonUnmarshal record0.SNS.Message = Except.ok msg)
    (hget : (w.httpGet msg.SubmissionURL).1 = some resp)
    (hclient : (w.newClient (credentials w)).1 = some client) :
    (Handler w snsEvent).flags =
      (List.range 7).map (fun k =>
        conjunctionFlag ((downloadChecks w msg resp ++ archiveChecks w msg resp client).take k)) := by
  unfold credentials at hclient
  simp only [Handler, hrec, hdec, download_fetched w _ _ resp hget, upload_client, hclient]
  simp only [Handler.download, Handler.upload, hget, hclient, downloadChecks, archiveChecks,
    archiveWriter, credentials]
  generalize (w.httpGet msg.SubmissionURL).2 = e1
  generalize (w.readAll resp) = read
  generalize (w.newClient _).2 = e4
  generalize w.writerWrite _ _ = e5
  generalize w.writerClose _ = e6
  obtain ⟨body, e3⟩ := read
  by_cases h2 : resp.StatusCode = 200 <;>
  rcases e1 with _ | e1 <;> rcases e3 with _ | e3 <;> rcases e4 with _ | e4 <;>
  rcases e5 with _ | e5 <;> rcases e6 with _ | e6 <;>
  simp [h2, conjunctionFlag, List.range, List.range.loop]

/-- The values of `status` in a run that panics on line 81. -/
theorem Handler_flags_nil_client (w : World) (snsEvent : SNSEvent) (record0 : SNSEventRecord)
    (rest : List SNSEventRecord) (msg : SubmissionMessage) (resp : Response)
    (hrec : snsEvent.Records = record0 :: rest)
    (hdec : w.jsonUnmarshal record0.SNS.Message = Except.ok msg)
    (hget : (w.httpGet msg.SubmissionURL).1 = some resp)
    (hclient : (w.newClient (credentials w)).1 = none) :
    (Handler w snsEvent).flags =
      (List.range 5).map (fun k =>
        conjunctionFlag
          ((downloadChecks w msg resp ++ [(w.newClient (credentials w)).2.isNone]).take k)) := by
  unfold credentials at hclient
  simp only [Handler, hrec, hdec, download_fetched w _ _ resp hget, upload_client, hclient]
  simp only [Handler.download, Handler.upload, hget, hclient, downloadChecks, credentials]
  generalize (w.httpGet msg.SubmissionURL).2 = e1
  generalize (w.readAll resp) = read
  generalize (w.newClient _).2 = e4
  obtain ⟨body, e3⟩ := read
  by_cases h2 : resp.StatusCode = 200 <;>
  rcases e1 with _ | e1 <;> rcases e3 with _ | e3 <;> rcases e4 with _ | e4 <;>
  simp [h2, conjunctionFlag, List.range, List.range.loop]

theorem statusAtNotify_eq (w : World) (msg : SubmissionMessage) (resp : Response) (client : Client)
    (hget : (w.httpGet msg.SubmissionURL).1 = some resp)
    (hclient : (w.newClient (credentials w)).1 = some client) :
    statusAtNotify w msg resp =
      conjunctionFlag (downloadChecks w msg resp ++ archiveChecks w msg resp client) := by
  simp only [statusAtNotify, Handler.download, Handler.upload, hget, hclient, downloadChecks,
    archiveChecks, archiveWriter]
  generalize (w.httpGet msg.SubmissionURL).2 = e1
  generalize (w.readAll resp) = read
  generalize (w.newClient _).2 = e4
  generalize w.writerWrite _ _ = e5
  generalize w.writerClose _ = e6
  obtain ⟨body, e3⟩ := read
  by_cases h2 : resp.StatusCode = 200 <;>
  rcases e1 with _ | e1 <;> rcases e3 with _ | e3 <;> rcases e4 with _ | e4 <;>
  rcases e5 with _ | e5 <;> rcases e6 with _ | e6 <;>
  simp [h2, conjunctionFlag]

theorem conjunctionFlag_cases (checks : List Bool) :
    conjunctionFlag checks = 1 ∨ conjunctionFlag checks = 0 := by
  unfold conjunctionFlag
  split
  · exact Or.inl rfl
  · exact Or.inr rfl

theorem conjunctionFlag_eq_one (checks : List Bool) :
    conjunctionFlag checks = 1 ↔ ∀ c ∈ checks, c = true := by
  unfold conjunctionFlag
  split
  · next h => simpa using h
  · next h => simpa using h

theorem upload_flags (w : World) (decodedCredentials : Bytes)
    (bucketName assignment email : String) (body : Bytes) (status : Int) :
    ∃ init, (Handler.upload w decodedCredentials bucketName assignment email body status).flags =
      init ++ [(Handler.upload w decodedCredentials bucketName assignment email body status).status] := by
  unfold Handler.upload
  simp only []
  split
  · exact ⟨[], rfl⟩
  · exact ⟨[_, _], rfl⟩

/-- In a run on a decoded message with a response, nil client or not, the last
value of `status` is the one `Handler.upload` ends with. -/
theorem Handler_finalStatus (w : World) (snsEvent : SNSEvent) (record0 : SNSEventRecord)
    (rest : List SNSEventRecord) (msg : SubmissionMessage) (resp : Response)
    (hrec : snsEvent.Records = record0 :: rest)
    (hdec : w.jsonUnmarshal record0.SNS.Message = Except.ok msg)
    (hget : (w.httpGet msg.SubmissionURL).1 = some resp) :
    finalStatus (Handler w snsEvent) = some (statusAtNotify w msg resp) := by
  obtain ⟨init, hinit⟩ := upload_flags w (credentials w)
    (w.getenv "BUCKET_NAME") msg.AssignmentName msg.StudentEmail (w.readAll resp).1
    (Handler.download w msg.SubmissionURL 1).status
  unfold credentials at hinit
  simp only [Handler, hrec, hdec, download_fetched w _ _ resp hget, finalStatus, statusAtNotify,
    credentials]
  split <;>
    rw [hinit, ← List.append_assoc, ← List.cons_append, List.getLast?_concat]


theorem Handler_filter (p : Effect → Bool) (hp : Quiet p) (w : World) (snsEvent : SNSEvent)
    (record0 : SNSEventRecord) (rest : List SNSEventRecord) (msg : SubmissionMessage)
    (resp : Response) (client : Client)
    (hrec : snsEvent.Records = record0 :: rest)
    (hdec : w.jsonUnmarshal record0.SNS.Message = Except.ok msg)
    (hget : (w.httpGet msg.SubmissionURL).1 = some resp)
    (hclient : (w.newClient (credentials w)).1 = some client) :
    List.filter p (Handler w snsEvent).trace =
      List.filter p
        (Effect.writerWrite (archiveWriter w msg client) (w.readAll resp).1 ::
          notifyCalls w (w.getenv "EMAIL_DOMAIN") (w.getenv "MAILGUN_API") (w.getenv "DYNAMO_TABLE")
            msg.StudentEmail msg.SubmissionURL msg.AssignmentName (statusAtNotify w msg resp)) := by
  unfold credentials at hclient
  simp only [Handler, hrec, hdec, download_fetched w _ _ resp hget, upload_client, hclient]
  simp only [List.filter_append, download_filter p hp, upload_filter p hp _ _ _ _ _ _ _ client hclient,
    notify_filter p hp, statusAtNotify, archiveWriter, credentials]
  simp only [List.filter_cons, List.filter_nil, hp.println, hp.clientClose, hp.bodyClose,
    List.nil_append, List.append_nil, Bool.false_eq_true, if_false]
  split <;> simp

/-- A run without a decoded message, a response and a client makes no call of
the archive writer, the mail backend or the audit. -/
theorem Handler_filter_nil (p : Effect → Bool) (hp : Quiet p) (w : World) (snsEvent : SNSEvent)
    (h : ∀ record0 rest msg resp client, snsEvent.Records = record0 :: rest →
      w.jsonUnmarshal record0.SNS.Message = Except.ok msg →
      (w.httpGet msg.SubmissionURL).1 = some resp →
      (w.newClient (credentials w)).1 = some client → False) :
    List.filter p (Handler w snsEvent).trace = [] := by
  unfold Handler
  split
  · simp
  · next record0 rest hrec =>
    simp only []
    split
    · simp [hp.println]
    · next msg hdec =>
      split
      · simp [List.filter_append, download_filter p hp, hp.println]
      · next resp body hf =>
        have hg : (w.httpGet msg.SubmissionURL).1 = some resp := by
          cases hg : (w.httpGet msg.SubmissionURL).1 with
          | none => simp [Handler.download, hg] at hf
          | some r =>
            rw [download_fetched w _ _ r hg] at hf
            simp only [Option.some.injEq, Prod.mk.injEq] at hf
            rw [hf.1]
        simp only [upload_client]
        split
        · next hc =>
          simp [List.filter_append, download_filter p hp, upload_filter_nil p hp _ _ _ _ _ _ _ hc,
            hp.println, hp.clientClose, hp.bodyClose]
        · next c hc =>
          exact absurd (h record0 rest msg resp c hrec hdec hg hc) id

theorem quiet_isNotification : Quiet isNotification := by
  constructor <;> intros <;> rfl

theorem quiet_isAudit : Quiet isAudit := by
  constructor <;> intros <;> rfl

theorem quiet_isArchiveWrite : Quiet isArchiveWrite := by
  constructor <;> intros <;> rfl

theorem quiet_isMilestone : Quiet isMilestone := by
  constructor <;> intros <;> rfl

theorem quiet_isMailSend : Quiet isMailSend := by
  constructor <;> intros <;> rfl

theorem quiet_isMarshal : Quiet isMarshal := by
  constructor <;> intros <;> rfl

/-- A run that calls `SendSuccessMessage` or `SendFailMessage` had a first record,
decoded its message, got a response from `http.Get` and a client from
`storage.NewClient`. -/
theorem reaches_notification (w : World) (snsEvent : SNSEvent)
    (hreach : notifications (Handler w snsEvent).trace ≠ []) :
    ∃ record0 rest msg resp client, snsEvent.Records = record0 :: rest ∧
      w.jsonUnmarshal record0.SNS.Message = Except.ok msg ∧
      (w.httpGet msg.SubmissionURL).1 = some resp ∧
      (w.newClient (credentials w)).1 = some client := by
  by_contra hno
  apply hreach
  apply Handler_filter_nil isNotification quiet_isNotification
  intro record0 rest msg resp client hrec hdec hget hclient
  exact hno ⟨record0, rest, msg, resp, client, hrec, hdec, hget, hclient⟩

/-- A run on a decoded message that panics on line 59 or on line 81 makes no
call of the archive writer, the mail backend or the audit. -/
theorem Handler_filter_of_panic (p : Effect → Bool) (hp : Quiet p) (w : World)
    (snsEvent : SNSEvent) (record0 : SNSEventRecord) (rest : List SNSEventRecord)
    (msg : SubmissionMessage)
    (hrec : snsEvent.Records = record0 :: rest)
    (hdec : w.jsonUnmarshal record0.SNS.Message = Except.ok msg)
    (hnil : (w.httpGet msg.SubmissionURL).1 = none ∨ (w.newClient (credentials w)).1 = none) :
    List.filter p (Handler w snsEvent).trace = [] := by
  apply Handler_filter_nil p hp
  intro r0 rs m resp client hr hd hg hc
  rw [hrec] at hr
  cases hr
  rw [hdec] at hd
  cases hd
  rcases hnil with h | h
  · rw [h] at hg
    cases hg
  · rw [h] at hc
    cases hc


/-- The calls of a run on a decoded message with a response and a client: one
archive write, then one notification call with one send, then one audit call. -/
theorem Handler_calls (w : World) (snsEvent : SNSEvent) (record0 : SNSEventRecord)
    (rest : List SNSEventRecord) (msg : SubmissionMessage) (resp : Response) (client : Client)
    (hrec : snsEvent.Records = record0 :: rest)
    (hdec : w.jsonUnmarshal record0.SNS.Message = Except.ok msg)
    (hget : (w.httpGet msg.SubmissionURL).1 = some resp)
    (hclient : (w.newClient (credentials w)).1 = some client) :
    ∃ m,
      notifySend w (w.getenv "EMAIL_DOMAIN") (w.getenv "MAILGUN_API") msg.StudentEmail
          msg.SubmissionURL msg.AssignmentName (statusAtNotify w msg resp) =
        ([Effect.mailgunSend (w.getenv "EMAIL_DOMAIN") (w.getenv "MAILGUN_API") m],
          w.mailgunSend (w.getenv "EMAIL_DOMAIN") (w.getenv "MAILGUN_API") m) ∧
      archiveWrites (Handler w snsEvent).trace =
        [Effect.writerWrite (archiveWriter w msg client) (w.readAll resp).1] ∧
      notifications (Handler w snsEvent).trace =
        [notifyCall (w.getenv "EMAIL_DOMAIN") (w.getenv "MAILGUN_API") msg.StudentEmail
          msg.SubmissionURL msg.AssignmentName (statusAtNotify w msg resp)] ∧
      (Handler w snsEvent).trace.filter isMailSend =
        [Effect.mailgunSend (w.getenv "EMAIL_DOMAIN") (w.getenv "MAILGUN_API") m] ∧
      audits (Handler w snsEvent).trace =
        [Effect.callTrackEmailSent
          (w.mailgunSend (w.getenv "EMAIL_DOMAIN") (w.getenv "MAILGUN_API") m).1
          msg.StudentEmail (w.getenv "DYNAMO_TABLE") (statusAtNotify w msg resp)] ∧
      milestones (Handler w snsEvent).trace =
        [Effect.writerWrite (archiveWriter w msg client) (w.readAll resp).1,
         notifyCall (w.getenv "EMAIL_DOMAIN") (w.getenv "MAILGUN_API") msg.StudentEmail
          msg.SubmissionURL msg.AssignmentName (statusAtNotify w msg resp),
         Effect.callTrackEmailSent
          (w.mailgunSend (w.getenv "EMAIL_DOMAIN") (w.getenv "MAILGUN_API") m).1
          msg.StudentEmail (w.getenv "DYNAMO_TABLE") (statusAtNotify w msg resp)] ∧
      ∀ info ∈ emailInfos (Handler w snsEvent).trace, info.Status = statusAtNotify w msg resp := by
  have hfilter := fun p hp => Handler_filter p hp w snsEvent record0 rest msg resp client
    hrec hdec hget hclient
  obtain ⟨m, hm⟩ := notifySend_eq w (w.getenv "EMAIL_DOMAIN") (w.getenv "MAILGUN_API")
    msg.StudentEmail msg.SubmissionURL msg.AssignmentName (statusAtNotify w msg resp)
  have hcall : ∀ (p : Effect → Bool),
      (∀ d k e u a, p (Effect.callSendSuccessMessage d k e u a) = true) →
      (∀ d k e u a, p (Effect.callSendFailMessage d k e u a) = true) →
      p (notifyCall (w.getenv "EMAIL_DOMAIN") (w.getenv "MAILGUN_API") msg.StudentEmail
          msg.SubmissionURL msg.AssignmentName (statusAtNotify w msg resp)) = true := by
    intro p h1 h2
    unfold notifyCall
    split
    · exact h1 _ _ _ _ _
    · exact h2 _ _ _ _ _
  have hcall2 : ∀ (p : Effect → Bool),
      (∀ d k e u a, p (Effect.callSendSuccessMessage d k e u a) = false) →
      (∀ d k e u a, p (Effect.callSendFailMessage d k e u a) = false) →
      p (notifyCall (w.getenv "EMAIL_DOMAIN") (w.getenv "MAILGUN_API") msg.StudentEmail
          msg.SubmissionURL msg.AssignmentName (statusAtNotify w msg resp)) = false := by
    intro p h1 h2
    unfold notifyCall
    split
    · exact h1 _ _ _ _ _
    · exact h2 _ _ _ _ _
  refine ⟨m, hm, ?_, ?_, ?_, ?_, ?_, ?_⟩
  · have h := hcall2 isArchiveWrite (fun _ _ _ _ _ => rfl) (fun _ _ _ _ _ => rfl)
    rw [archiveWrites, hfilter _ quiet_isArchiveWrite, notifyCalls, hm]
    simp only [List.filter_cons, List.filter_append, List.filter_nil, h]
    by_cases hn : w.newSession = none <;>
      simp [hn, isArchiveWrite]
  · have h := hcall isNotification (fun _ _ _ _ _ => rfl) (fun _ _ _ _ _ => rfl)
    rw [notifications, hfilter _ quiet_isNotification, notifyCalls, hm]
    simp only [List.filter_cons, List.filter_append, List.filter_nil, h]
    by_cases hn : w.newSession = none <;>
      simp [hn, isNotification]
  · have h := hcall2 isMailSend (fun _ _ _ _ _ => rfl) (fun _ _ _ _ _ => rfl)
    rw [hfilter _ quiet_isMailSend, notifyCalls, hm]
    simp only [List.filter_cons, List.filter_append, List.filter_nil, h]
    by_cases hn : w.newSession = none <;>
      simp [hn, isMailSend]
  · have h := hcall2 isAudit (fun _ _ _ _ _ => rfl) (fun _ _ _ _ _ => rfl)
    rw [audits, hfilter _ quiet_isAudit, notifyCalls, hm]
    simp only [List.filter_cons, List.filter_append, List.filter_nil, h]
    by_cases hn : w.newSession = none <;>
      simp [hn, isAudit]
  · have h := hcall isMilestone (fun _ _ _ _ _ => rfl) (fun _ _ _ _ _ => rfl)
    rw [milestones, hfilter _ quiet_isMilestone, notifyCalls, hm]
    simp only [List.filter_cons, List.filter_append, List.filter_nil, h]
    by_cases hn : w.newSession = none <;>
      simp [hn, isMilestone, isArchiveWrite, isNotification, isAudit]
  · have h := hcall2 isMarshal (fun _ _ _ _ _ => rfl) (fun _ _ _ _ _ => rfl)
    intro info
    rw [emailInfos, hfilter _ quiet_isMarshal, notifyCalls, hm]
    simp only [List.filter_cons, List.filter_append, List.filter_nil, h]
    by_cases hn : w.newSession = none <;>
      simp [hn, isMarshal]
    rintro rfl
    rfl

/-- With a response from `http.Get` and a client from `storage.NewClient`, a
run on a decoded message makes exactly one notification call and exactly one
audit call, whatever else the download and the archive returned. -/
theorem Handler_notifies_once_of_response (w : World) (snsEvent : SNSEvent)
    (record0 : SNSEventRecord) (rest : List SNSEventRecord) (msg : SubmissionMessage)
    (resp : Response) (client : Client)
    (hrec : snsEvent.Records = record0 :: rest)
    (hdec : w.jsonUnmarshal record0.SNS.Message = Except.ok msg)
    (hget : (w.httpGet msg.SubmissionURL).1 = some resp)
    (hclient : (w.newClient (credentials w)).1 = some client) :
    (notifications (Handler w snsEvent).trace).length = 1 ∧
      (audits (Handler w snsEvent).trace).length = 1 := by
  obtain ⟨m, -, -, hnote, -, haudit, -, -⟩ :=
    Handler_calls w snsEvent record0 rest msg resp client hrec hdec hget hclient
  rw [hnote, haudit]
  exact ⟨rfl, rfl⟩

/-! ## The claims -/

/-- C1, at the input where it fails: when the first record decodes and
`http.Get` returns a transport error with a nil response, `Handler` panics on
line 59 (`defer resp.Body.Close()`) after it has set `status` to 0, and the run
contains no call of `SendSuccessMessage`, `SendFailMessage` or `TrackEmailSent`. -/
theorem Handler_transport_error_panics (w : World) (snsEvent : SNSEvent)
    (record0 : SNSEventRecord) (rest : List SNSEventRecord) (msg : SubmissionMessage) (e : Error)
    (hrec : snsEvent.Records = record0 :: rest)
    (hdec : w.jsonUnmarshal record0.SNS.Message = Except.ok msg)
    (hget : w.httpGet msg.SubmissionURL = (none, some e)) :
    (Handler w snsEvent).exit =
        Exit.panicked "runtime error: invalid memory address or nil pointer dereference" ∧
      (Handler w snsEvent).flags = [1, 0] ∧
      notifications (Handler w snsEvent).trace = [] ∧
      audits (Handler w snsEvent).trace = [] := by
  have hnil : ∀ (p : Effect → Bool), Quiet p → List.filter p (Handler w snsEvent).trace = [] :=
    fun p hp => Handler_filter_of_panic p hp w snsEvent record0 rest msg hrec hdec
      (Or.inl (by rw [hget]))
  refine ⟨?_, ?_, hnil _ quiet_isNotification, hnil _ quiet_isAudit⟩
  · simp [Handler, hrec, hdec, Handler.download, hget]
  · simp [Handler, hrec, hdec, Handler.download, hget]

/-- The failing input of C1: scenario 1 of the specification with a DNS failure. -/
theorem Handler_transport_error_panics_witness :
    (Handler transportErrorWorld demoEvent).exit =
        Exit.panicked "runtime error: invalid memory address or nil pointer dereference" ∧
      (Handler transportErrorWorld demoEvent).flags = [1, 0] ∧
      notifications (Handler transportErrorWorld demoEvent).trace = [] ∧
      audits (Handler transportErrorWorld demoEvent).trace = [] :=
  Handler_transport_error_panics transportErrorWorld demoEvent (demoRecord demoMessage) []
    (SubmissionMessage.mk "a@x.com" "https://ok/file" "HW1") "dial tcp: lookup ok: no such host"
    rfl rfl rfl

/-- C4: when `json.Unmarshal` returns an error for the message of the first
record, `Handler` prints the error and returns; the run contains no download,
no archive call, no mail send and no audit insert. -/
theorem Handler_decode_error_aborts (w : World) (snsEvent : SNSEvent)
    (record0 : SNSEventRecord) (rest : List SNSEventRecord) (err : Error)
    (hrec : snsEvent.Records = record0 :: rest)
    (hdec : w.jsonUnmarshal record0.SNS.Message = Except.error err) :
    Handler w snsEvent =
        Run.mk [Effect.println [Val.str "Error while unmarshalling SNS message:", Val.err (some err)]]
          [] Exit.returned ∧
      (Handler w snsEvent).trace.filter isPipelineEffect = [] := by
  have h : Handler w snsEvent =
      Run.mk [Effect.println [Val.str "Error while unmarshalling SNS message:", Val.err (some err)]]
        [] Exit.returned := by
    simp [Handler, hrec, hdec]
  refine ⟨h, ?_⟩
  rw [h]
  rfl

/-- Scenario 4 of the specification: the message `not json`. -/
theorem Handler_decode_error_aborts_witness :
    Handler demoWorld malformedEvent =
        Run.mk [Effect.println [Val.str "Error while unmarshalling SNS message:",
          Val.err (some "invalid character 'o' in literal null (expecting 'u')")]]
          [] Exit.returned ∧
      (Handler demoWorld malformedEvent).trace.filter isPipelineEffect = [] :=
  Handler_decode_error_aborts demoWorld malformedEvent (demoRecord "not json") []
    "invalid character 'o' in literal null (expecting 'u')" rfl rfl

/-- C7: two events whose first records carry the same message give the same
run in the same world, whatever else the first records hold and whatever
records follow. -/
theorem Handler_first_record_only (w : World) (event1 event2 : SNSEvent)
    (r1 r2 : SNSEventRecord) (rest1 rest2 : List SNSEventRecord)
    (h1 : event1.Records = r1 :: rest1) (h2 : event2.Records = r2 :: rest2)
    (hmsg : r1.SNS.Message = r2.SNS.Message) :
    Handler w event1 = Handler w event2 := by
  simp only [Handler, h1, h2, hmsg]

/-- A single record against a batch of two with another envelope and a second record. -/
theorem Handler_first_record_only_witness :
    Handler notFoundWorld demoEvent = Handler notFoundWorld batchEvent :=
  Handler_first_record_only notFoundWorld demoEvent batchEvent (demoRecord demoMessage) _ [] _
    rfl rfl rfl

/-- C2: the successive values of `status` are the running conjunction of the
checks made. In every run a value 0 is followed only by values 0. In a run
that panics on line 59 the values are 1 and then the result of the request
check; in a run that panics on line 81 they are 1 and then the running
conjunction of the three checks of the download and the check of the client
creation. In a run that reaches the notification step the value at the
initialisation is 1 and the value after the k-th of the six checks is 1
exactly when the first k checks succeeded (and 0 otherwise); hence the final
value is 1 exactly when all three checks of the download and all three checks
of the archive succeeded, and it is 0 otherwise. -/
theorem Handler_status_running_conjunction (w : World) (snsEvent : SNSEvent) :
    List.Pairwise (fun earlier later => earlier = 0 → later = 0) (Handler w snsEvent).flags ∧
    (∀ record0 rest msg, snsEvent.Records = record0 :: rest →
      w.jsonUnmarshal record0.SNS.Message = Except.ok msg →
      (w.httpGet msg.SubmissionURL).1 = none →
      (Handler w snsEvent).flags =
        [1, conjunctionFlag [(w.httpGet msg.SubmissionURL).2.isNone]]) ∧
    (∀ record0 rest msg resp, snsEvent.Records = record0 :: rest →
      w.jsonUnmarshal record0.SNS.Message = Except.ok msg →
      (w.httpGet msg.SubmissionURL).1 = some resp →
      (w.newClient (credentials w)).1 = none →
      (Handler w snsEvent).flags =
        (List.range 5).map (fun k =>
          conjunctionFlag
            ((downloadChecks w msg resp ++ [(w.newClient (credentials w)).2.isNone]).take k))) ∧
    (notifications (Handler w snsEvent).trace ≠ [] →
      ∃ record0 rest msg resp client, snsEvent.Records = record0 :: rest ∧
        w.jsonUnmarshal record0.SNS.Message = Except.ok msg ∧
        (w.httpGet msg.SubmissionURL).1 = some resp ∧
        (w.newClient (credentials w)).1 = some client ∧
        (Handler w snsEvent).flags =
          (List.range 7).map (fun k =>
            conjunctionFlag
              ((downloadChecks w msg resp ++ archiveChecks w msg resp client).take k)) ∧
        (Handler w snsEvent).flags.head? = some 1 ∧
        (finalStatus (Handler w snsEvent) = some 1 ↔
          (∀ c ∈ downloadChecks w msg resp, c = true) ∧
            (∀ c ∈ archiveChecks w msg resp client, c = true)) ∧
        (finalStatus (Handler w snsEvent) = some 1 ∨ finalStatus (Handler w snsEvent) = some 0)) := by
  have hnone : ∀ record0 rest msg, snsEvent.Records = record0 :: rest →
      w.jsonUnmarshal record0.SNS.Message = Except.ok msg →
      (w.httpGet msg.SubmissionURL).1 = none →
      (Handler w snsEvent).flags =
        [1, conjunctionFlag [(w.httpGet msg.SubmissionURL).2.isNone]] := by
    intro record0 rest msg hrec hdec hget
    simp only [Handler, hrec, hdec, Handler.download, hget, conjunctionFlag]
    cases (w.httpGet msg.SubmissionURL).2 <;> simp
  have hsome : ∀ record0 rest msg resp client, snsEvent.Records = record0 :: rest →
      w.jsonUnmarshal record0.SNS.Message = Except.ok msg →
      (w.httpGet msg.SubmissionURL).1 = some resp →
      (w.newClient (credentials w)).1 = some client →
      List.Pairwise (fun earlier later => earlier = 0 → later = 0) (Handler w snsEvent).flags := by
    intro record0 rest msg resp client hrec hdec hget hclient
    rw [Handler_flags w snsEvent record0 rest msg resp client hrec hdec hget hclient]
    simp only [downloadChecks, archiveChecks]
    generalize (w.httpGet msg.SubmissionURL).2.isNone = c1
    generalize decide (resp.StatusCode = 200) = c2
    generalize (w.readAll resp).2.isNone = c3
    generalize (w.newClient _).2.isNone = c4
    generalize (w.writerWrite _ _).isNone = c5
    generalize (w.writerClose _).isNone = c6
    cases c1 <;> cases c2 <;> cases c3 <;> cases c4 <;> cases c5 <;> cases c6 <;> decide
  have hpanic : ∀ record0 rest msg resp, snsEvent.Records = record0 :: rest →
      w.jsonUnmarshal record0.SNS.Message = Except.ok msg →
      (w.httpGet msg.SubmissionURL).1 = some resp →
      (w.newClient (credentials w)).1 = none →
      List.Pairwise (fun earlier later => earlier = 0 → later = 0) (Handler w snsEvent).flags := by
    intro record0 rest msg resp hrec hdec hget hclient
    rw [Handler_flags_nil_client w snsEvent record0 rest msg resp hrec hdec hget hclient]
    simp only [downloadChecks]
    generalize (w.httpGet msg.SubmissionURL).2.isNone = c1
    generalize decide (resp.StatusCode = 200) = c2
    generalize (w.readAll resp).2.isNone = c3
    generalize (w.newClient _).2.isNone = c4
    cases c1 <;> cases c2 <;> cases c3 <;> cases c4 <;> decide
  refine ⟨?_, hnone, ?_, ?_⟩
  · cases hrec : snsEvent.Records with
    | nil => simp [Handler, hrec]
    | cons record0 rest =>
      cases hdec : w.jsonUnmarshal record0.SNS.Message with
      | error err => simp [Handler, hrec, hdec]
      | ok msg =>
        cases hget : (w.httpGet msg.SubmissionURL).1 with
        | none =>
          rw [hnone record0 rest msg hrec hdec hget]
          generalize (w.httpGet msg.SubmissionURL).2.isNone = c1
          cases c1 <;> decide
        | some resp =>
          cases hclient : (w.newClient (credentials w)).1 with
          | none => exact hpanic record0 rest msg resp hrec hdec hget hclient
          | some client => exact hsome record0 rest msg resp client hrec hdec hget hclient
  · intro record0 rest msg resp hrec hdec hget hclient
    exact Handler_flags_nil_client w snsEvent record0 rest msg resp hrec hdec hget hclient
  · intro hreach
    obtain ⟨record0, rest, msg, resp, client, hrec, hdec, hget, hclient⟩ :=
      reaches_notification w snsEvent hreach
    have hflags := Handler_flags w snsEvent record0 rest msg resp client hrec hdec hget hclient
    have hfinal := Handler_finalStatus w snsEvent record0 rest msg resp hrec hdec hget
    have hstatus := statusAtNotify_eq w msg resp client hget hclient
    refine ⟨record0, rest, msg, resp, client, hrec, hdec, hget, hclient, hflags, ?_, ?_, ?_⟩
    · rw [hflags]
      rfl
    · rw [hfinal, hstatus, Option.some.injEq, conjunctionFlag_eq_one]
      simp only [List.mem_append]
      constructor
      · intro h
        exact ⟨fun c hc => h c (Or.inl hc), fun c hc => h c (Or.inr hc)⟩
      · rintro ⟨hd, ha⟩ c (hc | hc)
        · exact hd c hc
        · exact ha c hc
    · rw [hfinal, hstatus]
      rcases conjunctionFlag_cases
        (downloadChecks w msg resp ++ archiveChecks w msg resp client) with h | h
      · exact Or.inl (congrArg some h)
      · exact Or.inr (congrArg some h)

/-- Scenario 3 of the specification: the download succeeds and the archive
write fails, so the values of `status` are 1 up to the write and 0 from it on. -/
theorem Handler_status_running_conjunction_witness :
    (Handler archiveFailWorld demoEvent).flags = [1, 1, 1, 1, 1, 0, 0] ∧
    notifications (Handler archiveFailWorld demoEvent).trace ≠ [] ∧
    ∃ record0 rest msg resp client, demoEvent.Records = record0 :: rest ∧
      archiveFailWorld.jsonUnmarshal record0.SNS.Message = Except.ok msg ∧
      (archiveFailWorld.httpGet msg.SubmissionURL).1 = some resp ∧
      (archiveFailWorld.newClient (credentials archiveFailWorld)).1 = some client ∧
      (Handler archiveFailWorld demoEvent).flags =
        (List.range 7).map (fun k =>
          conjunctionFlag
            ((downloadChecks archiveFailWorld msg resp ++
              archiveChecks archiveFailWorld msg resp client).take k)) ∧
      (Handler archiveFailWorld demoEvent).flags.head? = some 1 ∧
      (finalStatus (Handler archiveFailWorld demoEvent) = some 1 ↔
        (∀ c ∈ downloadChecks archiveFailWorld msg resp, c = true) ∧
          (∀ c ∈ archiveChecks archiveFailWorld msg resp client, c = true)) ∧
      (finalStatus (Handler archiveFailWorld demoEvent) = some 1 ∨
        finalStatus (Handler archiveFailWorld demoEvent) = some 0) :=
  ⟨by decide, by decide,
    (Handler_status_running_conjunction archiveFailWorld demoEvent).2.2.2 (by decide)⟩


/-- C3: in a run that reaches the notification step, the final value of
`status` fixes both the template and the audit code. If it is 1, the one
notification call is `SendSuccessMessage`, the one message handed to the mail
backend is the one `SendSuccessMessage` composes, `TrackEmailSent` is called
once, with status 1, and every record it builds has `Status` 1. If it is 0,
the same holds with `SendFailMessage` and 0. No other final value occurs. -/
theorem Handler_template_matches_audit (w : World) (snsEvent : SNSEvent)
    (hreach : notifications (Handler w snsEvent).trace ≠ []) :
    ∃ d k t e u a,
      (finalStatus (Handler w snsEvent) = some 1 ∧
        notifications (Handler w snsEvent).trace = [Effect.callSendSuccessMessage d k e u a] ∧
        (Handler w snsEvent).trace.filter isMailSend = (SendSuccessMessage w d k e u a).1 ∧
        audits (Handler w snsEvent).trace =
          [Effect.callTrackEmailSent (SendSuccessMessage w d k e u a).2.1 e t 1] ∧
        ∀ info ∈ emailInfos (Handler w snsEvent).trace, info.Status = 1) ∨
      (finalStatus (Handler w snsEvent) = some 0 ∧
        notifications (Handler w snsEvent).trace = [Effect.callSendFailMessage d k e u a] ∧
        (Handler w snsEvent).trace.filter isMailSend = (SendFailMessage w d k e u a).1 ∧
        audits (Handler w snsEvent).trace =
          [Effect.callTrackEmailSent (SendFailMessage w d k e u a).2.1 e t 0] ∧
        ∀ info ∈ emailInfos (Handler w snsEvent).trace, info.Status = 0) := by
  obtain ⟨record0, rest, msg, resp, client, hrec, hdec, hget, hclient⟩ :=
    reaches_notification w snsEvent hreach
  have hfinal := Handler_finalStatus w snsEvent record0 rest msg resp hrec hdec hget
  obtain ⟨m, hm, -, hnote, hmail, haudit, -, hinfo⟩ :=
    Handler_calls w snsEvent record0 rest msg resp client hrec hdec hget hclient
  refine ⟨w.getenv "EMAIL_DOMAIN", w.getenv "MAILGUN_API", w.getenv "DYNAMO_TABLE",
    msg.StudentEmail, msg.SubmissionURL, msg.AssignmentName, ?_⟩
  have hcases : statusAtNotify w msg resp = 1 ∨ statusAtNotify w msg resp = 0 := by
    rw [statusAtNotify_eq w msg resp client hget hclient]
    exact conjunctionFlag_cases _
  rcases hcases with hs | hs
  · left
    rw [hs] at hm hnote haudit hinfo hfinal
    have hsend : SendSuccessMessage w (w.getenv "EMAIL_DOMAIN") (w.getenv "MAILGUN_API")
        msg.StudentEmail msg.SubmissionURL msg.AssignmentName =
        ([Effect.mailgunSend (w.getenv "EMAIL_DOMAIN") (w.getenv "MAILGUN_API") m],
          w.mailgunSend (w.getenv "EMAIL_DOMAIN") (w.getenv "MAILGUN_API") m) := by
      simpa [notifySend] using hm
    refine ⟨hfinal, ?_, ?_, ?_, hinfo⟩
    · simpa [notifyCall] using hnote
    · rw [hmail, hsend]
    · rw [haudit, hsend]
  · right
    rw [hs] at hm hnote haudit hinfo hfinal
    have hsend : SendFailMessage w (w.getenv "EMAIL_DOMAIN") (w.getenv "MAILGUN_API")
        msg.StudentEmail msg.SubmissionURL msg.AssignmentName =
        ([Effect.mailgunSend (w.getenv "EMAIL_DOMAIN") (w.getenv "MAILGUN_API") m],
          w.mailgunSend (w.getenv "EMAIL_DOMAIN") (w.getenv "MAILGUN_API") m) := by
      simpa [notifySend] using hm
    refine ⟨hfinal, ?_, ?_, ?_, hinfo⟩
    · simpa [notifyCall] using hnote
    · rw [hmail, hsend]
    · rw [haudit, hsend]

/-- Scenario 3 of the specification (the archive write fails): the failure
template and status 0. -/
theorem Handler_template_matches_audit_witness :
    notifications (Handler archiveFailWorld demoEvent).trace ≠ [] ∧
    ∃ d k t e u a,
      (finalStatus (Handler archiveFailWorld demoEvent) = some 1 ∧
        notifications (Handler archiveFailWorld demoEvent).trace =
          [Effect.callSendSuccessMessage d k e u a] ∧
        (Handler archiveFailWorld demoEvent).trace.filter isMailSend =
          (SendSuccessMessage archiveFailWorld d k e u a).1 ∧
        audits (Handler archiveFailWorld demoEvent).trace =
          [Effect.callTrackEmailSent (SendSuccessMessage archiveFailWorld d k e u a).2.1 e t 1] ∧
        ∀ info ∈ emailInfos (Handler archiveFailWorld demoEvent).trace, info.Status = 1) ∨
      (finalStatus (Handler archiveFailWorld demoEvent) = some 0 ∧
        notifications (Handler archiveFailWorld demoEvent).trace =
          [Effect.callSendFailMessage d k e u a] ∧
        (Handler archiveFailWorld demoEvent).trace.filter isMailSend =
          (SendFailMessage archiveFailWorld d k e u a).1 ∧
        audits (Handler archiveFailWorld demoEvent).trace =
          [Effect.callTrackEmailSent (SendFailMessage archiveFailWorld d k e u a).2.1 e t 0] ∧
        ∀ info ∈ emailInfos (Handler archiveFailWorld demoEvent).trace, info.Status = 0) :=
  ⟨by decide, Handler_template_matches_audit archiveFailWorld demoEvent (by decide)⟩

/-- C5: take a run that reaches the notification step and replace the result
of the mail send by any other result `send`, failures and the empty identifier
included. The run still hands the same message to the mail backend, its final
`status` is the one of the original run, and `TrackEmailSent` is called exactly
once: with the identifier that the send returned, with the student's email and
with that `status`. -/
theorem Handler_audit_after_send (w : World) (snsEvent : SNSEvent)
    (send : String → String → Message → String × Option Error)
    (hreach : notifications (Handler w snsEvent).trace ≠ []) :
    ∃ record0 rest msg d k m s,
      snsEvent.Records = record0 :: rest ∧
      w.jsonUnmarshal record0.SNS.Message = Except.ok msg ∧
      finalStatus (Handler w snsEvent) = some s ∧
      (Handler w snsEvent).trace.filter isMailSend = [Effect.mailgunSend d k m] ∧
      finalStatus (Handler { w with mailgunSend := send } snsEvent) = some s ∧
      (Handler { w with mailgunSend := send } snsEvent).trace.filter isMailSend =
        [Effect.mailgunSend d k m] ∧
      audits (Handler { w with mailgunSend := send } snsEvent).trace =
        [Effect.callTrackEmailSent (send d k m).1 msg.StudentEmail (w.getenv "DYNAMO_TABLE") s] := by
  obtain ⟨record0, rest, msg, resp, client, hrec, hdec, hget, hclient⟩ :=
    reaches_notification w snsEvent hreach
  have hfinal := Handler_finalStatus w snsEvent record0 rest msg resp hrec hdec hget
  obtain ⟨m, hm, -, -, hmail, -, -, -⟩ :=
    Handler_calls w snsEvent record0 rest msg resp client hrec hdec hget hclient
  have hfinal2 := Handler_finalStatus { w with mailgunSend := send } snsEvent record0 rest msg resp
    hrec hdec hget
  obtain ⟨m2, hm2, -, -, hmail2, haudit2, -, -⟩ :=
    Handler_calls { w with mailgunSend := send } snsEvent record0 rest msg resp client
      hrec hdec hget hclient
  have hstatus : statusAtNotify { w with mailgunSend := send } msg resp = statusAtNotify w msg resp :=
    rfl
  have hmm : m2 = m := by
    have h1 : (notifySend w (w.getenv "EMAIL_DOMAIN") (w.getenv "MAILGUN_API") msg.StudentEmail
        msg.SubmissionURL msg.AssignmentName (statusAtNotify w msg resp)).1 =
        [Effect.mailgunSend (w.getenv "EMAIL_DOMAIN") (w.getenv "MAILGUN_API") m] :=
      congrArg Prod.fst hm
    have h3 : (notifySend { w with mailgunSend := send } (w.getenv "EMAIL_DOMAIN")
        (w.getenv "MAILGUN_API") msg.StudentEmail msg.SubmissionURL msg.AssignmentName
        (statusAtNotify w msg resp)).1 =
        (notifySend w (w.getenv "EMAIL_DOMAIN") (w.getenv "MAILGUN_API") msg.StudentEmail
          msg.SubmissionURL msg.AssignmentName (statusAtNotify w msg resp)).1 := by
      unfold notifySend
      split <;> rfl
    have h2 : (notifySend { w with mailgunSend := send } (w.getenv "EMAIL_DOMAIN")
        (w.getenv "MAILGUN_API") msg.StudentEmail msg.SubmissionURL msg.AssignmentName
        (statusAtNotify w msg resp)).1 =
        [Effect.mailgunSend (w.getenv "EMAIL_DOMAIN") (w.getenv "MAILGUN_API") m2] :=
      congrArg Prod.fst hm2
    have h4 : [Effect.mailgunSend (w.getenv "EMAIL_DOMAIN") (w.getenv "MAILGUN_API") m2] =
        [Effect.mailgunSend (w.getenv "EMAIL_DOMAIN") (w.getenv "MAILGUN_API") m] :=
      h2.symm.trans (h3.trans h1)
    simpa using h4
  subst hmm
  exact ⟨record0, rest, msg, w.getenv "EMAIL_DOMAIN", w.getenv "MAILGUN_API", m2,
    statusAtNotify w msg resp, hrec, hdec, hfinal, hmail, hfinal2, hmail2, haudit2⟩

/-- Scenario 5 of the specification: the send runs into its deadline and
returns an empty identifier and an error. -/
theorem Handler_audit_after_send_witness :
    notifications (Handler demoWorld demoEvent).trace ≠ [] ∧
    ∃ record0 rest msg d k m s,
      demoEvent.Records = record0 :: rest ∧
      demoWorld.jsonUnmarshal record0.SNS.Message = Except.ok msg ∧
      finalStatus (Handler demoWorld demoEvent) = some s ∧
      (Handler demoWorld demoEvent).trace.filter isMailSend = [Effect.mailgunSend d k m] ∧
      finalStatus (Handler sendTimeoutWorld demoEvent) = some s ∧
      (Handler sendTimeoutWorld demoEvent).trace.filter isMailSend = [Effect.mailgunSend d k m] ∧
      audits (Handler sendTimeoutWorld demoEvent).trace =
        [Effect.callTrackEmailSent "" msg.StudentEmail (demoWorld.getenv "DYNAMO_TABLE") s] :=
  ⟨by decide, Handler_audit_after_send demoWorld demoEvent
    (fun _ _ _ => ("", some "context deadline exceeded")) (by decide)⟩


theorem archiveKeys_of_client (w : World) (snsEvent : SNSEvent) (record0 : SNSEventRecord)
    (rest : List SNSEventRecord) (msg : SubmissionMessage) (resp : Response) (client : Client)
    (hrec : snsEvent.Records = record0 :: rest)
    (hdec : w.jsonUnmarshal record0.SNS.Message = Except.ok msg)
    (hget : (w.httpGet msg.SubmissionURL).1 = some resp)
    (hclient : (w.newClient (credentials w)).1 = some client) :
    archiveKeys (Handler w snsEvent).trace =
      [msg.AssignmentName ++ msg.StudentEmail ++ " submission"] := by
  obtain ⟨m, -, hwrite, -, -, -, -, -⟩ :=
    Handler_calls w snsEvent record0 rest msg resp client hrec hdec hget hclient
  unfold archiveWrites at hwrite
  simp [archiveKeys, hwrite, archiveWriter]

theorem archiveKeys_of_panic (w : World) (snsEvent : SNSEvent) (record0 : SNSEventRecord)
    (rest : List SNSEventRecord) (msg : SubmissionMessage)
    (hrec : snsEvent.Records = record0 :: rest)
    (hdec : w.jsonUnmarshal record0.SNS.Message = Except.ok msg)
    (hnil : (w.httpGet msg.SubmissionURL).1 = none ∨ (w.newClient (credentials w)).1 = none) :
    archiveKeys (Handler w snsEvent).trace = [] := by
  simp [archiveKeys,
    Handler_filter_of_panic _ quiet_isArchiveWrite w snsEvent record0 rest msg hrec hdec hnil]

theorem archiveKeys_cases (w : World) (snsEvent : SNSEvent) (record0 : SNSEventRecord)
    (rest : List SNSEventRecord) (msg : SubmissionMessage)
    (hrec : snsEvent.Records = record0 :: rest)
    (hdec : w.jsonUnmarshal record0.SNS.Message = Except.ok msg) :
    archiveKeys (Handler w snsEvent).trace = [] ∨
      archiveKeys (Handler w snsEvent).trace =
        [msg.AssignmentName ++ msg.StudentEmail ++ " submission"] := by
  cases hget : (w.httpGet msg.SubmissionURL).1 with
  | none => exact Or.inl (archiveKeys_of_panic w snsEvent record0 rest msg hrec hdec (Or.inl hget))
  | some resp =>
    cases hclient : (w.newClient (credentials w)).1 with
    | none =>
      exact Or.inl (archiveKeys_of_panic w snsEvent record0 rest msg hrec hdec (Or.inr hclient))
    | some client =>
      exact Or.inr
        (archiveKeys_of_client w snsEvent record0 rest msg resp client hrec hdec hget hclient)

/-- C6: in a run on a decoded message, every object name that `Handler`
writes to is `AssignmentName ++ StudentEmail ++ " submission"`, and at most
one write is made; when the request returned a response and the client was
created, that name is written to exactly once. The name depends on nothing
else: two runs, in any two worlds and on any two events, that both write to
the archive and whose messages agree on the assignment name and the student
email write to the same names. -/
theorem Handler_archive_key (w1 w2 : World) (event1 event2 : SNSEvent)
    (r1 r2 : SNSEventRecord) (rest1 rest2 : List SNSEventRecord) (msg1 msg2 : SubmissionMessage)
    (hrec1 : event1.Records = r1 :: rest1) (hrec2 : event2.Records = r2 :: rest2)
    (hdec1 : w1.jsonUnmarshal r1.SNS.Message = Except.ok msg1)
    (hdec2 : w2.jsonUnmarshal r2.SNS.Message = Except.ok msg2) :
    (∀ key ∈ archiveKeys (Handler w1 event1).trace,
        key = msg1.AssignmentName ++ msg1.StudentEmail ++ " submission") ∧
      (archiveKeys (Handler w1 event1).trace).length ≤ 1 ∧
      ((w1.httpGet msg1.SubmissionURL).1 ≠ none → (w1.newClient (credentials w1)).1 ≠ none →
        archiveKeys (Handler w1 event1).trace =
          [msg1.AssignmentName ++ msg1.StudentEmail ++ " submission"]) ∧
      (msg1.AssignmentName = msg2.AssignmentName → msg1.StudentEmail = msg2.StudentEmail →
        archiveKeys (Handler w1 event1).trace ≠ [] → archiveKeys (Handler w2 event2).trace ≠ [] →
        archiveKeys (Handler w1 event1).trace = archiveKeys (Handler w2 event2).trace) := by
  have c1 := archiveKeys_cases w1 event1 r1 rest1 msg1 hrec1 hdec1
  have c2 := archiveKeys_cases w2 event2 r2 rest2 msg2 hrec2 hdec2
  refine ⟨?_, ?_, ?_, ?_⟩
  · intro key hkey
    rcases c1 with h | h
    · rw [h] at hkey
      cases hkey
    · rw [h] at hkey
      simpa using hkey
  · rcases c1 with h | h <;> simp [h]
  · intro hne hcl
    cases hg : (w1.httpGet msg1.SubmissionURL).1 with
    | none => exact absurd hg hne
    | some resp =>
      cases hc : (w1.newClient (credentials w1)).1 with
      | none => exact absurd hc hcl
      | some client =>
        exact archiveKeys_of_client w1 event1 r1 rest1 msg1 resp client hrec1 hdec1 hg hc
  · intro ha he hne1 hne2
    rcases c1 with h1 | h1
    · exact absurd h1 hne1
    · rcases c2 with h2 | h2
      · exact absurd h2 hne2
      · rw [h1, h2, ha, he]

/-- The same student and assignment, submitted once to a world that answers
200 and once, in a batch, to a world that answers 404 with a broken body. -/
theorem Handler_archive_key_witness :
    (∀ key ∈ archiveKeys (Handler demoWorld demoEvent).trace, key = "HW1" ++ "a@x.com" ++ " submission") ∧
      (archiveKeys (Handler demoWorld demoEvent).trace).length ≤ 1 ∧
      ((demoWorld.httpGet "https://ok/file").1 ≠ none →
        (demoWorld.newClient (credentials demoWorld)).1 ≠ none →
        archiveKeys (Handler demoWorld demoEvent).trace = ["HW1" ++ "a@x.com" ++ " submission"]) ∧
      ("HW1" = "HW1" → "a@x.com" = "a@x.com" →
        archiveKeys (Handler demoWorld demoEvent).trace ≠ [] →
        archiveKeys (Handler notFoundWorld batchEvent).trace ≠ [] →
        archiveKeys (Handler demoWorld demoEvent).trace =
          archiveKeys (Handler notFoundWorld batchEvent).trace) :=
  Handler_archive_key demoWorld notFoundWorld demoEvent batchEvent (demoRecord demoMessage) _ [] _
    (SubmissionMessage.mk "a@x.com" "https://ok/file" "HW1")
    (SubmissionMessage.mk "a@x.com" "https://ok/file" "HW1") rfl rfl rfl rfl

/-- C8, with the input where it fails. In a run on a decoded message for which
`http.Get` returned a response, whatever its status code and whatever
`ioutil.ReadAll` returned: when `storage.NewClient` returned a client, the
archive write, the notification call and the audit call each occur exactly
once and in this order, and the write goes to the object named
`AssignmentName ++ StudentEmail ++ " submission"` with the bytes that
`ioutil.ReadAll` returned; when `storage.NewClient` failed and returned a nil
client, `Handler` panics on line 81 after lines 74-77 have set `status` to 0,
and the run contains no archive write, no notification call and no audit call. -/
theorem Handler_archive_after_download (w : World) (snsEvent : SNSEvent)
    (record0 : SNSEventRecord) (rest : List SNSEventRecord) (msg : SubmissionMessage)
    (resp : Response)
    (hrec : snsEvent.Records = record0 :: rest)
    (hdec : w.jsonUnmarshal record0.SNS.Message = Except.ok msg)
    (hget : (w.httpGet msg.SubmissionURL).1 = some resp) :
    (∀ client, (w.newClient (credentials w)).1 = some client →
      ∃ wc note audit,
        wc.object = msg.AssignmentName ++ msg.StudentEmail ++ " submission" ∧
        wc.bucket = w.getenv "BUCKET_NAME" ∧
        isNotification note = true ∧ isAudit audit = true ∧
        archiveWrites (Handler w snsEvent).trace = [Effect.writerWrite wc (w.readAll resp).1] ∧
        milestones (Handler w snsEvent).trace =
          [Effect.writerWrite wc (w.readAll resp).1, note, audit]) ∧
    ((w.newClient (credentials w)).1 = none →
      (Handler w snsEvent).exit =
          Exit.panicked "runtime error: invalid memory address or nil pointer dereference" ∧
        ((w.newClient (credentials w)).2 ≠ none → finalStatus (Handler w snsEvent) = some 0) ∧
        archiveWrites (Handler w snsEvent).trace = [] ∧
        notifications (Handler w snsEvent).trace = [] ∧
        audits (Handler w snsEvent).trace = [] ∧
        milestones (Handler w snsEvent).trace = []) := by
  constructor
  · intro client hclient
    obtain ⟨m, -, hwrite, -, -, -, hmile, -⟩ :=
      Handler_calls w snsEvent record0 rest msg resp client hrec hdec hget hclient
    refine ⟨archiveWriter w msg client, _, _, rfl, rfl, ?_, ?_, hwrite, hmile⟩
    · unfold notifyCall
      split <;> rfl
    · rfl
  · intro hclient
    have hnil : ∀ (p : Effect → Bool), Quiet p → List.filter p (Handler w snsEvent).trace = [] :=
      fun p hp => Handler_filter_of_panic p hp w snsEvent record0 rest msg hrec hdec
        (Or.inr hclient)
    refine ⟨?_, ?_, hnil _ quiet_isArchiveWrite, hnil _ quiet_isNotification,
      hnil _ quiet_isAudit, hnil _ quiet_isMilestone⟩
    · unfold credentials at hclient
      simp [Handler, hrec, hdec, download_fetched w _ _ resp hget, upload_client, hclient]
    · intro herr
      rw [Handler_finalStatus w snsEvent record0 rest msg resp hrec hdec hget]
      unfold credentials at hclient herr
      simp only [statusAtNotify, Handler.upload, credentials, hclient]
      have he : (w.newClient (w.base64DecodeString (w.getenv "GOOGLE_CREDENTIALS")).1).2.isSome =
          true := by
        cases h : (w.newClient (w.base64DecodeString (w.getenv "GOOGLE_CREDENTIALS")).1).2 with
        | none => exact absurd h herr
        | some e => rfl
      rw [if_pos he]

/-- The failing input of C8: scenario 1 of the specification (status 200, body
`data`) with credentials that `storage.NewClient` rejects. -/
theorem Handler_archive_after_download_witness :
    (Handler clientFailWorld demoEvent).exit =
        Exit.panicked "runtime error: invalid memory address or nil pointer dereference" ∧
      ((clientFailWorld.newClient (credentials clientFailWorld)).2 ≠ none →
        finalStatus (Handler clientFailWorld demoEvent) = some 0) ∧
      archiveWrites (Handler clientFailWorld demoEvent).trace = [] ∧
      notifications (Handler clientFailWorld demoEvent).trace = [] ∧
      audits (Handler clientFailWorld demoEvent).trace = [] ∧
      milestones (Handler clientFailWorld demoEvent).trace = [] :=
  (Handler_archive_after_download clientFailWorld demoEvent (demoRecord demoMessage) []
    (SubmissionMessage.mk "a@x.com" "https://ok/file" "HW1") (Response.mk 200 1) rfl rfl rfl).2 rfl

/-- C9: the submissions of `HW1` by `0a@x.com` and of `HW10` by `a@x.com`
differ in both fields, and `Handler` writes both to the same object of the
same bucket. -/
theorem Handler_archive_key_collision :
    demoWorld.jsonUnmarshal (demoRecord
        "\x7b\"student_email\":\"0a@x.com\",\"submission_url\":\"https://ok/one\",\"assignment_name\":\"HW1\"\x7d").SNS.Message =
        Except.ok (SubmissionMessage.mk "0a@x.com" "https://ok/one" "HW1") ∧
      demoWorld.jsonUnmarshal (demoRecord
        "\x7b\"student_email\":\"a@x.com\",\"submission_url\":\"https://ok/ten\",\"assignment_name\":\"HW10\"\x7d").SNS.Message =
        Except.ok (SubmissionMessage.mk "a@x.com" "https://ok/ten" "HW10") ∧
      ("HW1" ≠ "HW10" ∧ "0a@x.com" ≠ "a@x.com") ∧
      archiveKeys (Handler demoWorld eventOne).trace = ["HW10a@x.com submission"] ∧
      archiveKeys (Handler demoWorld eventTen).trace = ["HW10a@x.com submission"] ∧
      archiveWrites (Handler demoWorld eventOne).trace =
        archiveWrites (Handler demoWorld eventTen).trace := by
  refine ⟨rfl, rfl, ⟨by decide, by decide⟩, by decide, by decide, by decide⟩

theorem statusAtNotify_of_other_code (w : World) (msg : SubmissionMessage) (resp : Response)
    (hget : (w.httpGet msg.SubmissionURL).1 = some resp) (hcode : resp.StatusCode ≠ 200) :
    statusAtNotify w msg resp = 0 := by
  simp only [statusAtNotify, Handler.download, Handler.upload, hget]
  split <;> simp [hcode]

/-- C10: in a run on a decoded message for which `http.Get` returned a
response whose status code is not 200, whatever the other steps returned: the
final `status` is 0; no notification call other than `SendFailMessage` is
made; and when the run reaches the notification step (which it does exactly
when `storage.NewClient` returned a client) the one notification call is
`SendFailMessage` and the one audit call carries status 0. -/
theorem Handler_only_200_is_success (w : World) (snsEvent : SNSEvent)
    (record0 : SNSEventRecord) (rest : List SNSEventRecord) (msg : SubmissionMessage)
    (resp : Response)
    (hrec : snsEvent.Records = record0 :: rest)
    (hdec : w.jsonUnmarshal record0.SNS.Message = Except.ok msg)
    (hget : (w.httpGet msg.SubmissionURL).1 = some resp)
    (hcode : resp.StatusCode ≠ 200) :
    finalStatus (Handler w snsEvent) = some 0 ∧
      (∀ call ∈ notifications (Handler w snsEvent).trace,
        call = Effect.callSendFailMessage (w.getenv "EMAIL_DOMAIN") (w.getenv "MAILGUN_API")
          msg.StudentEmail msg.SubmissionURL msg.AssignmentName) ∧
      (notifications (Handler w snsEvent).trace ≠ [] ↔ (w.newClient (credentials w)).1 ≠ none) ∧
      (notifications (Handler w snsEvent).trace ≠ [] →
        notifications (Handler w snsEvent).trace =
          [Effect.callSendFailMessage (w.getenv "EMAIL_DOMAIN") (w.getenv "MAILGUN_API")
            msg.StudentEmail msg.SubmissionURL msg.AssignmentName] ∧
        ∃ id, audits (Handler w snsEvent).trace =
          [Effect.callTrackEmailSent id msg.StudentEmail (w.getenv "DYNAMO_TABLE") 0]) := by
  have hfinal := Handler_finalStatus w snsEvent record0 rest msg resp hrec hdec hget
  have hs := statusAtNotify_of_other_code w msg resp hget hcode
  rw [hs] at hfinal
  have hwith : ∀ client, (w.newClient (credentials w)).1 = some client →
      notifications (Handler w snsEvent).trace =
        [Effect.callSendFailMessage (w.getenv "EMAIL_DOMAIN") (w.getenv "MAILGUN_API")
          msg.StudentEmail msg.SubmissionURL msg.AssignmentName] ∧
      ∃ id, audits (Handler w snsEvent).trace =
        [Effect.callTrackEmailSent id msg.StudentEmail (w.getenv "DYNAMO_TABLE") 0] := by
    intro client hclient
    obtain ⟨m, -, -, hnote, -, haudit, -, -⟩ :=
      Handler_calls w snsEvent record0 rest msg resp client hrec hdec hget hclient
    rw [hs] at hnote haudit
    exact ⟨by simpa [notifyCall] using hnote, _, haudit⟩
  have hwithout : (w.newClient (credentials w)).1 = none →
      notifications (Handler w snsEvent).trace = [] :=
    fun hclient => Handler_filter_of_panic _ quiet_isNotification w snsEvent record0 rest msg
      hrec hdec (Or.inr hclient)
  refine ⟨hfinal, ?_, ?_, ?_⟩
  · intro call hcall
    cases hclient : (w.newClient (credentials w)).1 with
    | none =>
      rw [hwithout hclient] at hcall
      cases hcall
    | some client =>
      rw [(hwith client hclient).1] at hcall
      simpa using hcall
  · cases hclient : (w.newClient (credentials w)).1 with
    | none => simp [hwithout hclient]
    | some client => simp [(hwith client hclient).1]
  · intro hreach
    cases hclient : (w.newClient (credentials w)).1 with
    | none => exact absurd (hwithout hclient) hreach
    | some client => exact hwith client hclient

/-- A response with status 201 whose body is read to its end and archived
without error: the run reaches the notification step and reports a failure. -/
theorem Handler_only_200_is_success_witness :
    ((createdWorld.readAll (Response.mk 201 1)).2 = none ∧
      archiveChecks createdWorld (SubmissionMessage.mk "a@x.com" "https://ok/file" "HW1")
        (Response.mk 201 1) (Client.mk 1) = [true, true, true] ∧
      notifications (Handler createdWorld demoEvent).trace ≠ []) ∧
    (finalStatus (Handler createdWorld demoEvent) = some 0 ∧
      (∀ call ∈ notifications (Handler createdWorld demoEvent).trace,
        call = Effect.callSendFailMessage (createdWorld.getenv "EMAIL_DOMAIN")
          (createdWorld.getenv "MAILGUN_API") "a@x.com" "https://ok/file" "HW1") ∧
      (notifications (Handler createdWorld demoEvent).trace ≠ [] ↔
        (createdWorld.newClient (credentials createdWorld)).1 ≠ none) ∧
      (notifications (Handler createdWorld demoEvent).trace ≠ [] →
        notifications (Handler createdWorld demoEvent).trace =
          [Effect.callSendFailMessage (createdWorld.getenv "EMAIL_DOMAIN")
            (createdWorld.getenv "MAILGUN_API") "a@x.com" "https://ok/file" "HW1"] ∧
        ∃ id, audits (Handler createdWorld demoEvent).trace =
          [Effect.callTrackEmailSent id "a@x.com" (createdWorld.getenv "DYNAMO_TABLE") 0])) :=
  ⟨⟨rfl, rfl, by decide⟩,
    Handler_only_200_is_success createdWorld demoEvent (demoRecord demoMessage) []
      (SubmissionMessage.mk "a@x.com" "https://ok/file" "HW1") (Response.mk 201 1) rfl rfl rfl
      (by decide)⟩

end Serverless
